import Mathlib

/-!
Shallow embedding of `streamer/streamer.py` (twitter-streamer).

The embedding follows the source file closely:
* Python truthiness of optional ints / lists is made explicit (`truthyInt`,
  `truthyList`).
* `simplejson.loads` and `tweepy.models.Status.parse` are external library
  calls; a raw message therefore carries its decoding outcome (`RawData.json`,
  with `none` standing for a raised `JSONDecodeError`) and the tweepy view of
  the decoded payload (`RawData.status`, meaningful only when `json` is some).
* A Python function that can raise an uncaught exception is embedded with
  `Except`; the error payload is the listener state at the point of the raise
  (mutations made before the raise persist on the Python object).
-/

namespace Streamer

/-- character-list test: does `hay` start with `pat`? -/
def charsMatchAt : List Char → List Char → Bool
  | _, [] => true
  | [], _ :: _ => false
  | h :: hs, p :: ps => (h = p) && charsMatchAt hs ps

/-- character-list test: does `hay` contain `pat` as a contiguous run? -/
def charsContain : List Char → List Char → Bool
  | [], pat => charsMatchAt [] pat
  | h :: hs, pat => charsMatchAt (h :: hs) pat || charsContain hs pat

/-- Python `pat in hay` on strings (substring containment). -/
def strContains (hay pat : String) : Bool :=
  charsContain hay.toList pat.toList

/-- Python `hay.startswith(pat)`. -/
def strStarts (hay pat : String) : Bool :=
  charsMatchAt hay.toList pat.toList

/-- Python `s.lower()`, character-wise over the underlying list. -/
def strLower (s : String) : String :=
  String.mk (s.toList.map Char.toLower)

/-- Python truthiness of an optional integer (`None` and `0` are falsy). -/
def truthyInt : Option Int → Bool
  | none => false
  | some n => n != 0

/-- Python truthiness of an optional list (`None` and `[]` are falsy). -/
def truthyList {α : Type} : Option (List α) → Bool
  | none => false
  | some l => !l.isEmpty

/-- MISSING_FIELD_VALUE = '' (streamer.py line 15). -/
def MISSING_FIELD_VALUE : String := ""

/-- association-list lookup used for JSON objects and attribute views. -/
def assocGet {α : Type} : List (String × α) → String → Option α
  | [], _ => none
  | (k, v) :: rest, key => if k = key then some v else assocGet rest key

/-- minimal JSON value model for `simplejson.loads` results. -/
inductive JVal where
  | obj (fields : List (String × JVal))
  | str (s : String)
  | num (n : Int)
  | arr (elems : List JVal)
  | bool (b : Bool)
  | null
deriving Repr

/-- tweepy view of a decoded status payload: exactly the attributes the
streamer reads.  `attrs` is the dotted-path attribute view consumed by
`utils.resolve_with_default`. -/
structure Status where
  has_retweeted_status : Bool
  text : String
  user_lang : String
  attrs : List (String × String)
deriving Repr

/-- raw message as delivered to `StreamListener.on_data`, together with the
outcome of the external decoding steps: `json = none` models a
`JSONDecodeError` raised by `simplejson.loads`; `status` is the
`tweepy.models.Status.parse` view of the payload, meaningful only when
`json` is some. -/
structure RawData where
  text : String
  json : Option JVal
  status : Status
deriving Repr

/-- command-line options: the fields of the argparse namespace that the
embedded functions read. -/
structure Opts where
  fields : Option (List String)
  duration : Option Int
  max_tweets : Option Int
  user_lang : List String
  no_retweets : Bool
  terminate_on_error : Bool
  report_lag : Option Int
deriving Repr

/-- mutable listener state (`StreamListener.__init__`, lines 106-108). -/
structure LState where
  running : Bool
  first_message_received : Option Int
  status_count : Nat
deriving Repr

/-- output effects of a handler: a CSV row written to stdout or the raw
message text printed verbatim. -/
inductive OutRow where
  | csv (row : List String)
  | raw (text : String)
deriving Repr

/-- accumulator loop of a comma split over the character list. -/
def splitCommaAux : List Char → List Char → List String
  | [], acc => [String.mk acc.reverse]
  | c :: cs, acc =>
    if c = ',' then String.mk acc.reverse :: splitCommaAux cs []
    else splitCommaAux cs (c :: acc)

/-- streamer.py lines 46-50: `csv_args` splits a CSV string into a list
(Python `value.split(",")`). -/
def csv_args (value : String) : List String :=
  splitCommaAux value.toList []

/-- Python membership of a space-class character for the regex class `\s`
and for `str.strip()`. -/
def isSpaceClass (c : Char) : Bool :=
  c = ' ' || c = '\t' || c = '\n' || c = '\x0d' || c = '\x0b' || c = '\x0c'

/-- Python `value.strip()` over the character list. -/
def trimChars (cs : List Char) : List Char :=
  ((cs.dropWhile isSpaceClass).reverse.dropWhile isSpaceClass).reverse

/-- character class `[\ssmd]` of the regex in `duration_type` (line 74);
note that it does not include the letter h. -/
def inDurationCodeClass (c : Char) : Bool :=
  isSpaceClass c || c = 's' || c = 'm' || c = 'd'

/-- value of the digit run, as `int(...)` would produce. -/
def digitsToNat (ds : List Char) : Nat :=
  ds.foldl (fun n c => n * 10 + (c.toNat - 48)) 0

/-- secs dictionary of `duration_type` (line 73). -/
def durationSecs (c : Char) : Option Nat :=
  if c = ' ' then some 1
  else if c = 's' then some 1
  else if c = 'm' then some 60
  else if c = 'h' then some 3600
  else if c = 'd' then some 86400
  else none

/-- streamer.py lines 62-85: `duration_type`.  The input is stripped, padded
with one space and lower-cased; the regex `^(?P<val>\d+)(?P<code>[\ssmd]+)`
is embedded as a maximal digit run followed by a non-empty run over the
class `[\ssmd]`; on a match the first class character selects the
multiplier from the secs dictionary; otherwise an `ArgumentTypeError` is
raised.  A space-class character outside the secs dictionary would raise an
uncaught `KeyError` (kept distinct in the error message). -/
def duration_type (value : String) : Except String Nat :=
  let cs := (trimChars value.toList ++ [' ']).map Char.toLower
  let digits := cs.takeWhile Char.isDigit
  let rest := cs.dropWhile Char.isDigit
  let codeRun := rest.takeWhile inDurationCodeClass
  match digits, codeRun with
  | [], _ => .error "ArgumentTypeError"
  | _ :: _, [] => .error "ArgumentTypeError"
  | _ :: _, c :: _ =>
    match durationSecs c with
    | some k => .ok (digitsToNat digits * k)
    | none => .error "KeyError"

/-- bounding-box entry of the macro table: either a literal coordinate
quadruple or an alias naming another entry. -/
inductive MacroVal where
  | coords (c : List Rat)
  | alias (s : String)
deriving Repr

/-- bounding box of the table entry "any". -/
def ANY_BOX : List Rat := [-180, -90, 180, 90]

/-- bounding box of the table entry "usa". -/
def USA_BOX : List Rat := [-124.848974, 24.396308, -66.885444, 49.384358]

/-- streamer.py lines 25-31: the LOCATION_QUERY_MACROS dictionary, embedded
as a lookup function over its five (distinct) keys. -/
def LOCATION_QUERY_MACROS_get (k : String) : Option MacroVal :=
  if k = "any" then some (.coords ANY_BOX)
  else if k = "all" then some (.alias "any")
  else if k = "global" then some (.alias "any")
  else if k = "usa" then some (.coords USA_BOX)
  else if k = "contintental_usa" then some (.alias "usa")
  else none

/-- streamer.py lines 34-43: `lookup_location_query_macro`.  The source
recurses without any depth bound; the `fuel` argument models the recursion
depth, so that `none` is "still recursing after `fuel` hops" while
`some r` is the value the source returns (`r = none` for an unknown name).
Fuel-indifference above the chain length is exactly termination of the
source recursion. -/
def lookup_location_query_macro : Nat → String → Option (Option (List Rat))
  | 0, _ => none
  | fuel + 1, name =>
    match LOCATION_QUERY_MACROS_get (strLower name) with
    | some (.alias s) => lookup_location_query_macro fuel s
    | some (.coords c) => some (some c)
    | none => some none

/-- match string of the status recognizer (streamer.py line 114). -/
def MATCH_STATUS : String := "\"in_reply_to_user_id_str\":"

/-- match string of the rate-limit recognizer (streamer.py line 118). -/
def MATCH_LIMIT : String := "\"limit\":\x7b"

/-- match string of the warning recognizer (streamer.py line 122). -/
def MATCH_WARNING : String := "\"warning\":"

/-- match string of the disconnect recognizer (streamer.py line 126). -/
def MATCH_DISCONNECT : String := "\"disconnect\":"

/-- Modelled from the spec: the `message_recognizers` module is not under
src/.  Per the spec, a `DataContainsRecognizer` predicate holds iff the raw
message contains its literal match string, and `MatchAnyRecognizer` always
matches.  The list order is the declared priority order of
`StreamListener.__init__` (lines 110-131): status, rate-limit, warning,
disconnect, catch-all. -/
def recognizer_matches : List (String → Bool) :=
  [ fun d => strContains d MATCH_STATUS,
    fun d => strContains d MATCH_LIMIT,
    fun d => strContains d MATCH_WARNING,
    fun d => strContains d MATCH_DISCONNECT,
    fun _ => true ]

/-- the recognizer for-loop of `on_data` (lines 264-272): returns the index
of the first recognizer whose predicate matches, together with the number of
predicates that were evaluated before the loop returned. -/
def find_first_match : List (String → Bool) → String → Option Nat × Nat
  | [], _ => (none, 0)
  | p :: ps, d =>
    if p d then (some 0, 1)
    else
      let r := find_first_match ps d
      (r.1.map (· + 1), r.2 + 1)

/-- streamer.py lines 276-292: `should_stop`.  Mirrors the control flow
exactly: when the duration option is truthy and a first message has been
received, the function returns the duration flag (whatever its value) and
the count test below is never reached. -/
def should_stop (o : Opts) (st : LState) (now : Int) : Bool :=
  if truthyInt o.duration then
    if truthyInt st.first_message_received then
      decide (now - st.first_message_received.getD 0 ≥ o.duration.getD 0)
    else
      truthyInt o.max_tweets && decide ((st.status_count : Int) > o.max_tweets.getD 0)
  else
    truthyInt o.max_tweets && decide ((st.status_count : Int) > o.max_tweets.getD 0)

/-- streamer.py lines 217-220: `is_retweet`. -/
def is_retweet (t : Status) : Bool :=
  t.has_retweeted_status || strStarts t.text "RT " || strContains t.text " RT "

/-- streamer.py lines 222-233: `tweet_matchp`. -/
def tweet_matchp (o : Opts) (t : Status) : Bool :=
  if o.no_retweets && is_retweet t then false
  else if !o.user_lang.isEmpty then o.user_lang.contains t.user_lang
  else true

/-- Modelled from the spec: `utils.resolve_with_default` (module `utils`
is not under src/).  Per the spec, the dotted path is resolved against the
record's attribute view; when the path is absent the caller-supplied
default is returned, except when the caller opts into strict mode (no
default supplied, as at streamer.py line 173), in which case absence
raises the field-not-found condition (`AttributeError`). -/
def resolve_with_default (s : Status) (path : String) (dflt : Option String) :
    Except Unit String :=
  match assocGet s.attrs path with
  | some v => .ok v
  | none =>
    match dflt with
    | some v => .ok v
    | none => .error ()

/-- field loop of `parse_status_and_dispatch` (lines 170-192): builds the
CSV row; a strict field-not-found with terminate-on-error set aborts the
row (`.error`, leading to session termination in the caller), otherwise
MISSING_FIELD_VALUE is substituted and assembly continues.  The
`value.encode('utf8')` step is the identity here since the model's values
are strings. -/
def build_csvrow (o : Opts) (status : Status) : List String → Except Unit (List String)
  | [] => .ok []
  | f :: rest =>
    match resolve_with_default status f none with
    | .ok v => (build_csvrow o status rest).map (fun r => v :: r)
    | .error () =>
      if o.terminate_on_error then .error ()
      else (build_csvrow o status rest).map (fun r => MISSING_FIELD_VALUE :: r)

/-- result type of a dispatch handler: the error payload is the listener
state at the point of an uncaught Python exception; a normal return carries
the new state, the Python return value (`some false` for `return False`,
`none` for falling off the end) and the emitted output. -/
abbrev HandlerResult := Except LState (LState × Option Bool × List OutRow)

/-- streamer.py lines 157-212: `parse_status_and_dispatch`.  A decode
failure of `json.loads` raises out of the handler (uncaught).  The
report-lag block (lines 204-212) only logs and, given that the first
parse succeeded, cannot raise, so it contributes no effect here. -/
def parse_status_and_dispatch (o : Opts) (st : LState) (now : Int) (d : RawData) :
    HandlerResult :=
  match d.json with
  | none => .error st
  | some _ =>
    let status := d.status
    if tweet_matchp o status then
      let st1 : LState := { st with status_count := st.status_count + 1 }
      if should_stop o st1 now then
        .ok ({ st1 with running := false }, some false, [])
      else
        if truthyList o.fields then
          match build_csvrow o status (o.fields.getD []) with
          | .error () => .ok ({ st1 with running := false }, some false, [])
          | .ok row => .ok (st1, none, [OutRow.csv row])
        else
          .ok (st1, none, [OutRow.raw d.text])
    else
      .ok (st, none, [])

/-- streamer.py lines 214-215: `parse_limit_and_dispatch`.  Raises when the
message fails to decode or lacks the limit/track keys; otherwise invokes
the inherited tweepy `on_limit` callback, whose default returns None. -/
def parse_limit_and_dispatch (st : LState) (d : RawData) : HandlerResult :=
  match d.json with
  | none => .error st
  | some j =>
    match j with
    | .obj fs =>
      match assocGet fs "limit" with
      | some (.obj lfs) =>
        match assocGet lfs "track" with
        | some _ => .ok (st, none, [])
        | none => .error st
      | some _ => .error st
      | none => .error st
    | _ => .error st

/-- streamer.py lines 235-237: `on_warning`.  Reads warning['code'] and
warning['message']; a missing key or a non-object warning raises. -/
def on_warning (st : LState) (w : Option JVal) : HandlerResult :=
  match w with
  | some (.obj wfs) =>
    match assocGet wfs "code", assocGet wfs "message" with
    | some _, some _ => .ok (st, none, [])
    | _, _ => .error st
  | _ => .error st

/-- streamer.py lines 149-155: `parse_warning_and_dispatch`.  Only
`JSONDecodeError` is caught: on a decode failure the handler logs the
exception and returns False.  A decoded non-object payload makes `.get`
raise `AttributeError`, which is not caught. -/
def parse_warning_and_dispatch (st : LState) (d : RawData) : HandlerResult :=
  match d.json with
  | none => .ok (st, some false, [])
  | some (.obj fs) => on_warning st (assocGet fs "warning")
  | some _ => .error st

/-- streamer.py lines 142-147: `on_disconnect`.  Raises when the message
fails to decode; otherwise logs with defaulted fields (the non-strict
`resolve_with_default` calls carry defaults and cannot raise) and falls
off the end, returning None. -/
def on_disconnect (st : LState) (d : RawData) : HandlerResult :=
  match d.json with
  | none => .error st
  | some _ => .ok (st, none, [])

/-- streamer.py lines 139-140: `on_unrecognized` logs and returns None. -/
def on_unrecognized (st : LState) (_d : RawData) : HandlerResult :=
  .ok (st, none, [])

/-- dispatcher from recognizer index to handler, in the priority order of
`StreamListener.__init__`. -/
def run_handler (o : Opts) (st : LState) (now : Int) (d : RawData) : Nat → HandlerResult
  | 0 => parse_status_and_dispatch o st now d
  | 1 => parse_limit_and_dispatch st d
  | 2 => parse_warning_and_dispatch st d
  | 3 => on_disconnect st d
  | _ => on_unrecognized st d

/-- first-message bookkeeping at the top of `on_data` (lines 257-258);
Python `not self.first_message_received` is truthiness. -/
def set_first_message (st : LState) (now : Int) : LState :=
  if truthyInt st.first_message_received then st
  else { st with first_message_received := some now }

/-- streamer.py lines 256-274: `on_data`.  Records the first-message
timestamp, applies the entry stop check, then runs the first matching
recognizer's handler; a handler returning False (`is False`) terminates
the loop with running set to false; a raised exception propagates. -/
def on_data (o : Opts) (st : LState) (now : Int) (d : RawData) : HandlerResult :=
  let st1 := set_first_message st now
  if should_stop o st1 now then
    .ok ({ st1 with running := false }, some false, [])
  else
    match (find_first_match recognizer_matches d.text).1 with
    | some i =>
      match run_handler o st1 now d i with
      | .error st2 => .error st2
      | .ok (st2, r, rows) =>
        if r = some false then .ok ({ st2 with running := false }, some false, rows)
        else .ok (st2, none, rows)
    | none => .ok (st1, none, [])

/-- effect of one `on_data` call as seen by the session: an exception that
propagates out of the read loop is caught by the generic handler of
`process_tweets` (lines 371-373), which sets running to false. -/
def handle_data_in_session (o : Opts) (st : LState) (now : Int) (d : RawData) : LState :=
  match on_data o st now d with
  | .error st2 => { st2 with running := false }
  | .ok (st2, _, _) => st2

/-- streamer.py lines 239-246: `on_error`.  Any transport-reported status
code other than 401 stops the main loop (running := false) and returns
False to stop the read loop; a 401 falls through and returns None. -/
def on_error (st : LState) (status_code : Int) : LState × Option Bool :=
  if status_code != 401 then ({ st with running := false }, some false)
  else (st, none)

/-- session-level state of `process_tweets`: the listener's running flag
and the total time spent in `time.sleep(5)` back-off calls. -/
structure SState where
  running : Bool
  slept : Nat
deriving Repr

/-- outcome of one `streamer.filter(...)` attempt as classified by the
try/except ladder of `process_tweets` (lines 352-373): a normal return, an
`IOError`, a `KeyboardInterrupt`, or any other exception. -/
inductive FilterOutcome where
  | normal
  | ioError
  | keyboardInterrupt
  | otherExn
deriving Repr

/-- one iteration body of the `while listener.running` loop of
`process_tweets` (lines 351-377): exception handling, then a 5-unit sleep
iff the listener is still running. -/
def process_step (terminate_on_error : Bool) (st : SState) (ev : FilterOutcome) : SState :=
  let st1 :=
    match ev with
    | .normal => st
    | .ioError => if terminate_on_error then { st with running := false } else st
    | .keyboardInterrupt => { st with running := false }
    | .otherExn => { st with running := false }
  if st1.running then { st1 with slept := st1.slept + 5 } else st1

/-- the `while listener.running` loop of `process_tweets`, driven by a
finite prefix of filter-attempt outcomes. -/
def process_loop (terminate_on_error : Bool) (st : SState) : List FilterOutcome → SState
  | [] => st
  | ev :: evs =>
    if st.running then process_loop terminate_on_error (process_step terminate_on_error st ev) evs
    else st

/-- user_lang as produced by `_parse_command_line` (lines 456-468 and
494-501): argparse applies the `csv_args` type conversion to the string
default "en" when -u is not given; afterwards the wildcard hack empties
the list when it contains the entry "*". -/
def parse_user_lang (arg : Option String) : List String :=
  let p := csv_args (arg.getD "en")
  if !p.isEmpty && p.contains "*" then [] else p

/-! Theorems. -/

/-- C3: the duration-spec parser maps "5" to 5 seconds, "5m" to 300 seconds
and "5d" to 432000 seconds, and fails with the distinguished parse error on
"abc"; however "5h" also fails with that parse error instead of returning
18000 seconds, because the regex character class of `duration_type`
(streamer.py line 74) is written as the set containing the space class and
the letters s, m, d, omitting the letter h that the function docstring, the
secs dictionary and the --duration help text all promise to accept. -/
theorem c3_duration_type_eval :
    duration_type "5" = .ok 5 ∧
    duration_type "5m" = .ok 300 ∧
    duration_type "5d" = .ok 432000 ∧
    duration_type "abc" = .error "ArgumentTypeError" ∧
    duration_type "5h" = .error "ArgumentTypeError" :=
  ⟨rfl, rfl, rfl, rfl, rfl⟩

/-- unfolding equation for one hop of the macro lookup, stated so that the
fuel argument may be an arbitrary successor. -/
theorem lookup_macro_succ (n : Nat) (name : String) :
    lookup_location_query_macro (n + 1) name =
      match LOCATION_QUERY_MACROS_get (strLower name) with
      | some (.alias s) => lookup_location_query_macro n s
      | some (.coords c) => some (some c)
      | none => some none := rfl

/-- resolution of "any" needs a single hop at any positive fuel. -/
theorem lookup_macro_any (n : Nat) :
    lookup_location_query_macro (n + 1) "any" = some (some ANY_BOX) := rfl

/-- resolution of "usa" needs a single hop at any positive fuel. -/
theorem lookup_macro_usa (n : Nat) :
    lookup_location_query_macro (n + 1) "usa" = some (some USA_BOX) := rfl

/-- resolution of "any" at the literal fuel 1. -/
theorem lookup_macro_one_any :
    lookup_location_query_macro 1 "any" = some (some ANY_BOX) := rfl

/-- resolution of "usa" at the literal fuel 1. -/
theorem lookup_macro_one_usa :
    lookup_location_query_macro 1 "usa" = some (some USA_BOX) := rfl

/-- every name resolves within two hops: above fuel 2 the result no longer
depends on the fuel, and fuel 2 never runs out. -/
theorem lookup_macro_stable (name : String) (m : Nat) :
    lookup_location_query_macro (m + 2) name = lookup_location_query_macro 2 name ∧
    lookup_location_query_macro 2 name ≠ none := by
  have e1 : lookup_location_query_macro (m + 2) name =
      match LOCATION_QUERY_MACROS_get (strLower name) with
      | some (.alias s) => lookup_location_query_macro (m + 1) s
      | some (.coords c) => some (some c)
      | none => some none := rfl
  have e2 : lookup_location_query_macro 2 name =
      match LOCATION_QUERY_MACROS_get (strLower name) with
      | some (.alias s) => lookup_location_query_macro 1 s
      | some (.coords c) => some (some c)
      | none => some none := rfl
  rw [e1, e2]
  by_cases h1 : strLower name = "any"
  · simp [LOCATION_QUERY_MACROS_get, h1]
  by_cases h2 : strLower name = "all"
  · simp [LOCATION_QUERY_MACROS_get, h1, h2, lookup_macro_any, lookup_macro_one_any]
  by_cases h3 : strLower name = "global"
  · simp [LOCATION_QUERY_MACROS_get, h1, h2, h3, lookup_macro_any, lookup_macro_one_any]
  by_cases h4 : strLower name = "usa"
  · simp [LOCATION_QUERY_MACROS_get, h1, h2, h3, h4]
  by_cases h5 : strLower name = "contintental_usa"
  · simp [LOCATION_QUERY_MACROS_get, h1, h2, h3, h4, h5, lookup_macro_usa,
      lookup_macro_one_usa]
  · simp [LOCATION_QUERY_MACROS_get, h1, h2, h3, h4, h5]

/-- C9: the alias "all" resolves through the indirection "any" to the
quadruple [-180, -90, 180, 90], and alias resolution terminates on every
input: resolution of any name reaches a non-alias entry within two
indirection hops, so a 10-hop bound is never exceeded and the result is
fuel-independent from depth 2 on. -/
theorem c9_location_macro_resolution :
    lookup_location_query_macro 10 "all" = some (some [-180, -90, 180, 90]) ∧
    lookup_location_query_macro 10 "all" = lookup_location_query_macro 9 "any" ∧
    ∀ name : String, ∀ n : Nat, 2 ≤ n →
      lookup_location_query_macro n name = lookup_location_query_macro 2 name ∧
      lookup_location_query_macro 2 name ≠ none := by
  refine ⟨rfl, rfl, ?_⟩
  intro name n hn
  obtain ⟨m, rfl⟩ : ∃ m, n = m + 2 := ⟨n - 2, by omega⟩
  exact lookup_macro_stable name m

/-- C9 witness: the termination bound instantiated at the name "global"
and fuel 7. -/
theorem c9_witness :
    lookup_location_query_macro 7 "global" = lookup_location_query_macro 2 "global" ∧
    lookup_location_query_macro 2 "global" ≠ none :=
  c9_location_macro_resolution.2.2 "global" 7 (by omega)

/-- C2 counterexample: with a duration limit of 100 configured, a first
message received at time 10 and the clock at 20 (duration not yet elapsed),
a max-count limit of 1 and 2 matched records, the stop-check returns false,
although the claim demands that the count test (2 > 1) fire regardless of a
configured, not-yet-elapsed duration limit: `should_stop` returns the
duration flag unconditionally at streamer.py line 288, never reaching the
count test. -/
theorem c2_counterexample :
    should_stop ⟨none, some 100, some 1, ["en"], false, false, none⟩
      ⟨true, some 10, 2⟩ 20 = false ∧
    (2 : Int) > 1 :=
  ⟨rfl, by norm_num⟩

/-- C2 (amended): the count test is reached only when no duration limit is
in effect (duration option falsy, or no first message received yet); in
that case, with a nonzero max-count M configured, the stop-check returns
true exactly when the number of matched records exceeds M — in particular
true after exactly M + 1 matched records and false after exactly M. -/
theorem c2_count_stop_amended (o : Opts) (st : LState) (now : Int) (M : Int)
    (hM : o.max_tweets = some M) (hM0 : M ≠ 0)
    (hdur : truthyInt o.duration = false ∨ truthyInt st.first_message_received = false) :
    (should_stop o st now = true ↔ (st.status_count : Int) > M) ∧
    ((st.status_count : Int) = M + 1 → should_stop o st now = true) ∧
    ((st.status_count : Int) = M → should_stop o st now = false) := by
  have hb : truthyInt o.max_tweets = true := by simp [truthyInt, hM, hM0]
  have hcount : should_stop o st now =
      (truthyInt o.max_tweets && decide ((st.status_count : Int) > o.max_tweets.getD 0)) := by
    rcases hdur with hd | hd
    · simp [should_stop, hd]
    · by_cases hd2 : truthyInt o.duration = true
      · simp [should_stop, hd2, hd]
      · have hd2f : truthyInt o.duration = false := by simpa using hd2
        simp [should_stop, hd2f]
  rw [hcount, hb, hM]
  refine ⟨by simp, ?_, ?_⟩
  · intro h; simp [Option.getD, h]
  · intro h; simp [Option.getD, h]

/-- C2 witness: the amended count test instantiated with max-count 3, no
duration limit and 4 matched records. -/
theorem c2_witness :
    should_stop ⟨none, none, some 3, ["en"], false, false, none⟩ ⟨true, none, 4⟩ 0 = true :=
  (c2_count_stop_amended ⟨none, none, some 3, ["en"], false, false, none⟩
    ⟨true, none, 4⟩ 0 3 rfl (by norm_num) (Or.inl rfl)).2.1 (by norm_num)

/-- C10: when no language option is supplied, argparse applies the csv_args
conversion to the string default "en", so the allow-set is exactly ["en"]
and every status whose user profile language differs from "en" is excluded
by `tweet_matchp`; the allow-all behaviour arises only through the wildcard
hack, which empties the allow-set whenever "*" is among the parsed codes,
and an empty allow-set admits every language. -/
theorem c10_default_language_filter :
    parse_user_lang none = ["en"] ∧
    (∀ o : Opts, ∀ t : Status, o.user_lang = ["en"] → t.user_lang ≠ "en" →
      tweet_matchp o t = false) ∧
    parse_user_lang (some "*") = [] ∧
    (∀ s : String, (csv_args s).contains "*" = true → parse_user_lang (some s) = []) ∧
    (∀ o : Opts, ∀ t : Status, o.user_lang = [] → o.no_retweets = false →
      tweet_matchp o t = true) := by
  refine ⟨rfl, ?_, rfl, ?_, ?_⟩
  · intro o t hl hne
    by_cases hr : (o.no_retweets && is_retweet t) = true
    · simp [tweet_matchp, hr]
    · have hrf : (o.no_retweets && is_retweet t) = false := by simpa using hr
      simp [tweet_matchp, hrf, hl, hne]
  · intro s hs
    have hne : (csv_args s).isEmpty = false := by
      cases h : csv_args s with
      | nil => rw [h] at hs; simp [List.contains] at hs
      | cons a l => simp [List.isEmpty]
    simp [parse_user_lang, csv_args] at hs ⊢
    simp [csv_args] at hne
    simp [hne, hs]
  · intro o t hl hr
    simp [tweet_matchp, hl, hr]

/-- C10 witness: with the default allow-set a French-language status is
excluded, and passing a list containing the wildcard empties the set. -/
theorem c10_witness :
    tweet_matchp ⟨none, none, none, ["en"], false, false, none⟩
      ⟨false, "txt", "fr", []⟩ = false ∧
    parse_user_lang (some "en,fr,*") = [] :=
  ⟨c10_default_language_filter.2.1 _ _ rfl (by decide),
   c10_default_language_filter.2.2.2.1 "en,fr,*" (by decide)⟩

/-- C1: the dispatch loop selects exactly one recognizer for every raw
message — the first in the declared priority order (in-reply status,
rate-limit, warning, disconnect, catch-all) whose predicate matches.  The
second pair component is the number of predicates the loop evaluated, which
always equals the chosen index plus one, so later recognizers are never
evaluated; the catch-all (index 4) never wins when any higher-priority
predicate matches, and some recognizer is always chosen. -/
theorem c1_classifier_first_match_wins (d : String) :
    (strContains d MATCH_STATUS = true →
      find_first_match recognizer_matches d = (some 0, 1)) ∧
    (strContains d MATCH_STATUS = false → strContains d MATCH_LIMIT = true →
      find_first_match recognizer_matches d = (some 1, 2)) ∧
    (strContains d MATCH_STATUS = false → strContains d MATCH_LIMIT = false →
      strContains d MATCH_WARNING = true →
      find_first_match recognizer_matches d = (some 2, 3)) ∧
    (strContains d MATCH_STATUS = false → strContains d MATCH_LIMIT = false →
      strContains d MATCH_WARNING = false → strContains d MATCH_DISCONNECT = true →
      find_first_match recognizer_matches d = (some 3, 4)) ∧
    (strContains d MATCH_STATUS = false → strContains d MATCH_LIMIT = false →
      strContains d MATCH_WARNING = false → strContains d MATCH_DISCONNECT = false →
      find_first_match recognizer_matches d = (some 4, 5)) ∧
    ((strContains d MATCH_STATUS || strContains d MATCH_LIMIT ||
        strContains d MATCH_WARNING || strContains d MATCH_DISCONNECT) = true →
      (find_first_match recognizer_matches d).1 ≠ some 4) ∧
    (find_first_match recognizer_matches d).1.isSome = true := by
  cases h0 : strContains d MATCH_STATUS <;>
    cases h1 : strContains d MATCH_LIMIT <;>
      cases h2 : strContains d MATCH_WARNING <;>
        cases h3 : strContains d MATCH_DISCONNECT <;>
          simp [find_first_match, recognizer_matches, h0, h1, h2, h3]

/-- C1 witness: a message containing only the warning discriminant is
dispatched to the warning recognizer at index 2 after exactly three
predicate evaluations. -/
theorem c1_witness :
    find_first_match recognizer_matches "ab\x7b\"warning\": 1\x7d" = (some 2, 3) :=
  (c1_classifier_first_match_wins "ab\x7b\"warning\": 1\x7d").2.2.1
    (by decide) (by decide) (by decide)

/-- with terminate-on-error set, any unresolvable field in the configured
list aborts the row with the terminate signal. -/
theorem build_csvrow_error_of_missing (o : Opts) (s : Status) (fs : List String)
    (f : String) (hterm : o.terminate_on_error = true)
    (hmem : f ∈ fs) (habs : assocGet s.attrs f = none) :
    build_csvrow o s fs = .error () := by
  induction fs with
  | nil => cases hmem
  | cons g rest ih =>
    rcases List.mem_cons.mp hmem with rfl | hmem2
    · simp [build_csvrow, resolve_with_default, habs, hterm]
    · cases hg : assocGet s.attrs g with
      | none => simp [build_csvrow, resolve_with_default, hg, hterm]
      | some v => simp [build_csvrow, resolve_with_default, hg, ih hmem2, Except.map]

/-- without terminate-on-error the row is always assembled, substituting
MISSING_FIELD_VALUE for every unresolvable field. -/
theorem build_csvrow_ok_of_no_terminate (o : Opts) (s : Status) (fs : List String)
    (hterm : o.terminate_on_error = false) :
    build_csvrow o s fs =
      .ok (fs.map (fun g => (assocGet s.attrs g).getD MISSING_FIELD_VALUE)) := by
  induction fs with
  | nil => simp [build_csvrow]
  | cons g rest ih =>
    cases hg : assocGet s.attrs g <;>
      simp [build_csvrow, resolve_with_default, hg, hterm, ih, Except.map]

/-- C6: on a matched status record (stop test not firing) with a configured
field list containing a path that does not resolve: with terminate-on-error
the handler sets running to false and signals stop-session (returns False)
without emitting the row; without it, MISSING_FIELD_VALUE (the empty
string) is substituted for that column and the row is emitted with the
remaining columns assembled. -/
theorem c6_missing_field_policy (o : Opts) (st : LState) (now : Int) (d : RawData)
    (j : JVal) (fs : List String) (f : String)
    (hjson : d.json = some j)
    (hmatch : tweet_matchp o d.status = true)
    (hfields : o.fields = some fs) (hne : fs ≠ [])
    (hstop : should_stop o { st with status_count := st.status_count + 1 } now = false)
    (hmem : f ∈ fs) (habs : assocGet d.status.attrs f = none) :
    (o.terminate_on_error = true →
      parse_status_and_dispatch o st now d =
        .ok ({ st with status_count := st.status_count + 1, running := false },
          some false, [])) ∧
    (o.terminate_on_error = false →
      parse_status_and_dispatch o st now d =
        .ok ({ st with status_count := st.status_count + 1 }, none,
          [OutRow.csv
            (fs.map (fun g => (assocGet d.status.attrs g).getD MISSING_FIELD_VALUE))]) ∧
      (assocGet d.status.attrs f).getD MISSING_FIELD_VALUE = MISSING_FIELD_VALUE) := by
  have htruthy : truthyList (some fs) = true := by
    cases fs with
    | nil => exact absurd rfl hne
    | cons a l => simp [truthyList]
  constructor
  · intro hterm
    simp [parse_status_and_dispatch, hjson, hmatch, hstop, htruthy, hfields,
      build_csvrow_error_of_missing o d.status fs f hterm hmem habs]
  · intro hterm
    refine ⟨?_, by simp [habs]⟩
    simp [parse_status_and_dispatch, hjson, hmatch, hstop, htruthy, hfields,
      build_csvrow_ok_of_no_terminate o d.status fs hterm]

/-- C6 witness: two configured fields of which the second is missing; with
terminate-on-error unset the row is emitted with the empty string in the
missing column. -/
theorem c6_witness :
    parse_status_and_dispatch ⟨some ["a", "b"], none, none, [], false, false, none⟩
      ⟨true, none, 0⟩ 0 ⟨"t", some (.obj []), ⟨false, "hello", "en", [("a", "x")]⟩⟩ =
      .ok (⟨true, none, 1⟩, none, [OutRow.csv ["x", ""]]) :=
  ((c6_missing_field_policy ⟨some ["a", "b"], none, none, [], false, false, none⟩
    ⟨true, none, 0⟩ 0 ⟨"t", some (.obj []), ⟨false, "hello", "en", [("a", "x")]⟩⟩
    (.obj []) ["a", "b"] "b" rfl rfl rfl (by decide) rfl (by decide) rfl).2 rfl).1

/-- C7 counterexample: with a max-count limit of 1 and one record already
counted, the next matched record makes the stop test fire: the handler
sets running to false, returns False and emits nothing — yet the counter
was incremented from 1 to 2 for that very record, because
`parse_status_and_dispatch` increments `status_count` (line 163) before
evaluating `should_stop` (line 164).  The counter is therefore not
incremented only for records that are actually emitted, contrary to the
claim. -/
theorem c7_counterexample :
    parse_status_and_dispatch ⟨none, none, some 1, [], false, false, none⟩
      ⟨true, some 1, 1⟩ 0 ⟨"t", some (.obj []), ⟨false, "hi", "en", []⟩⟩ =
      .ok (⟨false, some 1, 2⟩, some false, []) :=
  rfl

/-- C7 (amended): for every matched status record the counter is
incremented, before the stop test — so the record that triggers the stop
is counted even though it is not emitted.  When the stop test (evaluated
on the incremented count) says stop, the handler sets running to false and
signals stop-session without emitting the record; when it says continue
and no field list is configured, exactly the raw record is emitted with
running unchanged. -/
theorem c7_status_counter_amended (o : Opts) (st : LState) (now : Int) (d : RawData)
    (j : JVal) (hjson : d.json = some j) (hmatch : tweet_matchp o d.status = true) :
    ∃ st2 r rows, parse_status_and_dispatch o st now d = .ok (st2, r, rows) ∧
      st2.status_count = st.status_count + 1 ∧
      (should_stop o { st with status_count := st.status_count + 1 } now = true →
        st2.running = false ∧ r = some false ∧ rows = []) ∧
      (should_stop o { st with status_count := st.status_count + 1 } now = false →
        truthyList o.fields = false →
        rows = [OutRow.raw d.text] ∧ st2.running = st.running) := by
  by_cases hstop : should_stop o { st with status_count := st.status_count + 1 } now = true
  · refine ⟨{ st with status_count := st.status_count + 1, running := false },
      some false, [], ?_, rfl, fun _ => ⟨rfl, rfl, rfl⟩, fun hc _ => ?_⟩
    · simp [parse_status_and_dispatch, hjson, hmatch, hstop]
    · rw [hstop] at hc; cases hc
  · have hstopf : should_stop o { st with status_count := st.status_count + 1 } now = false := by
      simpa using hstop
    by_cases hf : truthyList o.fields = true
    · cases hrow : build_csvrow o d.status (o.fields.getD []) with
      | error u =>
        cases u
        refine ⟨{ st with status_count := st.status_count + 1, running := false },
          some false, [], ?_, rfl, fun _ => ⟨rfl, rfl, rfl⟩, fun _ hc => ?_⟩
        · simp [parse_status_and_dispatch, hjson, hmatch, hstopf, hf, hrow]
        · rw [hf] at hc; cases hc
      | ok row =>
        refine ⟨{ st with status_count := st.status_count + 1 }, none,
          [OutRow.csv row], ?_, rfl, fun hc => ?_, fun _ hc => ?_⟩
        · simp [parse_status_and_dispatch, hjson, hmatch, hstopf, hf, hrow]
        · rw [hstopf] at hc; cases hc
        · rw [hf] at hc; cases hc
    · have hff : truthyList o.fields = false := by simpa using hf
      refine ⟨{ st with status_count := st.status_count + 1 }, none,
        [OutRow.raw d.text], ?_, rfl, fun hc => ?_, fun _ _ => ⟨rfl, rfl⟩⟩
      · simp [parse_status_and_dispatch, hjson, hmatch, hstopf, hff]
      · rw [hstopf] at hc; cases hc

/-- C7 witness: a matched record below the count limit with no field list
is emitted raw and the counter moves from 0 to 1. -/
theorem c7_witness :
    ∃ st2 r rows,
      parse_status_and_dispatch ⟨none, none, some 2, [], false, false, none⟩
        ⟨true, some 5, 0⟩ 7 ⟨"raw", some (.obj []), ⟨false, "hi", "en", []⟩⟩ =
        .ok (st2, r, rows) ∧
      st2.status_count = 0 + 1 ∧
      (should_stop ⟨none, none, some 2, [], false, false, none⟩ ⟨true, some 5, 0 + 1⟩ 7 = true →
        st2.running = false ∧ r = some false ∧ rows = []) ∧
      (should_stop ⟨none, none, some 2, [], false, false, none⟩ ⟨true, some 5, 0 + 1⟩ 7 = false →
        truthyList (none : Option (List String)) = false →
        rows = [OutRow.raw "raw"] ∧ st2.running = true) :=
  c7_status_counter_amended ⟨none, none, some 2, [], false, false, none⟩
    ⟨true, some 5, 0⟩ 7 ⟨"raw", some (.obj []), ⟨false, "hi", "en", []⟩⟩
    (.obj []) rfl rfl

/-- C4 counterexample: a message matching the disconnect category whose
JSON decoding fails makes `json.loads` raise inside `on_disconnect`
(line 143); nothing catches the exception until the generic handler of
`process_tweets` (lines 371-373), which sets running to false — so a
malformed message does terminate the session, contrary to the claim that
every dispatch handler recovers locally and continues. -/
theorem c4_counterexample :
    (handle_data_in_session ⟨none, none, none, ["en"], false, false, none⟩
      ⟨true, none, 0⟩ 0
      ⟨"\"disconnect\": oops", none, ⟨false, "", "en", []⟩⟩).running = false :=
  rfl

/-- C4 (amended): a message that matched any of the four typed categories
(status, rate-limit, warning, disconnect) but fails JSON decoding always
terminates the session: the warning handler alone catches the decode error
locally, logs it and returns False, which the dispatch loop converts into
running = false; the other three handlers let the exception propagate to
the session loop's generic except-clause, which also sets running to
false. -/
theorem c4_malformed_terminates_amended (o : Opts) (st : LState) (now : Int)
    (d : RawData) (i : Nat) (hjson : d.json = none)
    (hfind : (find_first_match recognizer_matches d.text).1 = some i) (hi : i < 4) :
    (handle_data_in_session o st now d).running = false := by
  unfold handle_data_in_session on_data
  by_cases hstop : should_stop o (set_first_message st now) now = true
  · simp [hstop]
  · have hstopf : should_stop o (set_first_message st now) now = false := by simpa using hstop
    simp only [hstopf, Bool.false_eq_true, if_false, hfind]
    interval_cases i <;>
      simp [run_handler, parse_status_and_dispatch, parse_limit_and_dispatch,
        parse_warning_and_dispatch, on_disconnect, hjson]

/-- C4 witness: a malformed rate-limit message terminates the session. -/
theorem c4_witness :
    (handle_data_in_session ⟨none, none, none, ["en"], false, false, none⟩
      ⟨true, some 3, 0⟩ 0
      ⟨"x\"limit\":\x7b oops", none, ⟨false, "", "en", []⟩⟩).running = false :=
  c4_malformed_terminates_amended ⟨none, none, none, ["en"], false, false, none⟩
    ⟨true, some 3, 0⟩ 0 ⟨"x\"limit\":\x7b oops", none, ⟨false, "", "en", []⟩⟩
    1 rfl (by decide) (by omega)

/-- C5 counterexample: a warning-category message whose JSON decoding fails
makes `parse_warning_and_dispatch` return False (line 155), and the
dispatch loop (lines 266-269) reads False as terminate: it sets running to
false and exits — the loop does not keep running, contrary to the claim
that the handler's return value signals continue-session. -/
theorem c5_counterexample :
    parse_warning_and_dispatch ⟨true, some 1, 0⟩
      ⟨"\"warning\": zzz", none, ⟨false, "", "en", []⟩⟩ =
      .ok (⟨true, some 1, 0⟩, some false, []) ∧
    (handle_data_in_session ⟨none, none, none, ["en"], false, false, none⟩
      ⟨true, some 1, 0⟩ 0
      ⟨"\"warning\": zzz", none, ⟨false, "", "en", []⟩⟩).running = false :=
  ⟨rfl, rfl⟩

/-- C5 (amended): when the warning handler receives a message whose JSON
decoding fails, it logs the exception and returns False; the dispatch loop
interprets that return value as stop-session, setting running to false and
stopping the read loop. -/
theorem c5_warning_decode_failure_stops_amended (o : Opts) (st : LState) (now : Int)
    (d : RawData) (hjson : d.json = none)
    (hfind : (find_first_match recognizer_matches d.text).1 = some 2)
    (hstop : should_stop o (set_first_message st now) now = false) :
    parse_warning_and_dispatch (set_first_message st now) d =
      .ok (set_first_message st now, some false, []) ∧
    on_data o st now d =
      .ok ({ set_first_message st now with running := false }, some false, []) := by
  constructor
  · simp [parse_warning_and_dispatch, hjson]
  · unfold on_data
    simp [hstop, hfind, run_handler, parse_warning_and_dispatch, hjson]

/-- C5 witness: the amended statement at a concrete malformed
warning-category message. -/
theorem c5_witness :
    parse_warning_and_dispatch (set_first_message ⟨true, none, 0⟩ 9)
      ⟨"ab\"warning\":cd", none, ⟨false, "", "en", []⟩⟩ =
      .ok (set_first_message ⟨true, none, 0⟩ 9, some false, []) ∧
    on_data ⟨none, none, none, ["en"], false, false, none⟩ ⟨true, none, 0⟩ 9
      ⟨"ab\"warning\":cd", none, ⟨false, "", "en", []⟩⟩ =
      .ok ({ set_first_message ⟨true, none, 0⟩ 9 with running := false },
        some false, []) :=
  c5_warning_decode_failure_stops_amended ⟨none, none, none, ["en"], false, false, none⟩
    ⟨true, none, 0⟩ 9 ⟨"ab\"warning\":cd", none, ⟨false, "", "en", []⟩⟩
    rfl (by decide) rfl

/-- with terminate-on-error unset, every IOError iteration leaves the loop
running and adds one fixed 5-unit back-off sleep. -/
theorem process_loop_ioError_no_terminate (n : Nat) (k : Nat) :
    process_loop false ⟨true, k⟩ (List.replicate n .ioError) = ⟨true, k + 5 * n⟩ := by
  induction n generalizing k with
  | zero => simp [process_loop]
  | succ m ih =>
    have hstep : process_step false ⟨true, k⟩ .ioError = ⟨true, k + 5⟩ := rfl
    rw [List.replicate_succ]
    show process_loop false ⟨true, k⟩ (.ioError :: List.replicate m .ioError) = _
    rw [process_loop, if_pos rfl, hstep, ih (k + 5)]
    congr 1
    omega

/-- C8 counterexample: a transport-reported error status of 420 — with
terminate-on-error unset — makes `on_error` set running to false and
return False (streamer.py lines 241-246 stop on anything other than 401),
so the session terminates instead of sleeping and retrying as the claim
demands for every recoverable transport error. -/
theorem c8_counterexample :
    on_error ⟨true, none, 0⟩ 420 = (⟨false, none, 0⟩, some false) :=
  rfl

/-- C8 (amended): for the exception-reported transport errors (IOError:
connection drop, read failure) the claim holds — with terminate-on-error
unset the session loop logs, sleeps the fixed 5-unit back-off and retries,
with no bound on the number of attempts while running stays true, and with
it set a single IOError ends the loop without sleeping.  A
transport-reported error status, however, terminates the session for every
code other than 401 regardless of terminate-on-error, and a 401 leaves the
state unchanged. -/
theorem c8_transport_error_amended :
    (∀ n : Nat, process_loop false ⟨true, 0⟩ (List.replicate n .ioError) = ⟨true, 5 * n⟩) ∧
    (∀ st : SState, st.running = true →
      process_step true st .ioError = { st with running := false }) ∧
    (∀ st : LState, ∀ c : Int, c ≠ 401 →
      on_error st c = ({ st with running := false }, some false)) ∧
    (∀ st : LState, on_error st 401 = (st, none)) := by
  refine ⟨?_, ?_, ?_, ?_⟩
  · intro n
    have h := process_loop_ioError_no_terminate n 0
    simpa using h
  · intro st h
    simp [process_step, h]
  · intro st c hc
    simp [on_error, hc]
  · intro st
    simp [on_error]

/-- C8 witness: three IOError iterations with terminate-on-error unset keep
the loop running after three 5-unit sleeps; with it set one IOError stops
the loop without sleeping; a 500 status stops the main loop. -/
theorem c8_witness :
    process_loop false ⟨true, 0⟩ (List.replicate 3 .ioError) = ⟨true, 5 * 3⟩ ∧
    process_step true ⟨true, 9⟩ .ioError = ⟨false, 9⟩ ∧
    on_error ⟨true, some 2, 7⟩ 500 = (⟨false, some 2, 7⟩, some false) :=
  ⟨c8_transport_error_amended.1 3,
   c8_transport_error_amended.2.1 ⟨true, 9⟩ rfl,
   c8_transport_error_amended.2.2.1 ⟨true, some 2, 7⟩ 500 (by norm_num)⟩

end Streamer
